import Mathlib

/-!
Shallow embedding of `moorage/instancelogger` (instancelogger.go) and proofs
about its reporter component.

Modelling conventions:
* Go `error` values are `GoError`: a message plus two flags recording whether
  the dynamic type implements `net.Error` and, if so, whether `Timeout()`
  returns true.  The unchecked type assertion `err.(net.Error)` panics when
  `isNetError = false`.
* External collaborators (metadata service, pubsub client construction,
  publish acknowledgment, stack capture) are an explicit environment record:
  each call site reads its deterministic outcome from the environment.
* Side effects are event traces: `Init` records lookups and client creation,
  `Error` records wait-group operations, published payloads, log lines and
  process exit, `Stop` records the release calls it makes.
* Nil-pointer dereferences and failed type assertions surface as an explicit
  `panicked` outcome where the Go code can reach one (`Init`); `Error` and
  `Stop` dereference only pointers they have nil-checked, so they are total.
-/

/-- Model of a Go `error` value: its `Error()` string, whether its dynamic
type implements `net.Error`, and the result of `Timeout()` when it does. -/
structure GoError where
  msg : String
  isNetError : Bool
  timeout : Bool
deriving Repr, DecidableEq

/-- Model of a `*pubsub.Client`: the project it was created for and whether a
client option was passed. -/
structure PubsubClient where
  projectID : String
  hasOption : Bool
deriving Repr, DecidableEq

/-- Model of a `*pubsub.Topic`: the topic name it was bound to. -/
structure PubsubTopic where
  name : String
deriving Repr, DecidableEq

/-- The `InstanceLogger` struct.  Pointer fields become `Option`; the
`context.Context`/`context.CancelFunc` pair, the client option and the
wait-group pointer are tracked only as presence flags, which is all the
code ever branches on. -/
structure InstanceLogger where
  errorTopicName : Option String
  instanceName : Option String
  projectID : Option String
  ctxActive : Bool
  cancelFunc : Bool
  client : Option PubsubClient
  clientOption : Bool
  waitGroup : Bool
  topic : Option PubsubTopic
deriving Repr, DecidableEq

/-- Constructor `New(clientOption, waitGroup)`: every pointer field starts nil. -/
def New (clientOption : Bool) (waitGroup : Bool) : InstanceLogger :=
  { errorTopicName := none
    instanceName := none
    projectID := none
    ctxActive := false
    cancelFunc := false
    client := none
    clientOption := clientOption
    waitGroup := waitGroup
    topic := none }

/-- Deterministic outcomes of the external collaborators used by `Init`:
`c.ProjectID()`, `c.InstanceName()` and `pubsub.NewClient`. -/
structure MetadataEnv where
  projectIDResult : Except GoError String
  instanceNameResult : Except GoError String
  newClientResult : Except GoError Unit
deriving Repr

/-- Externally visible calls made during `Init`. -/
inductive InitEvent where
  | lookupProjectID
  | lookupInstanceName
  | newClient (projectID : String)
deriving Repr, DecidableEq

/-- Outcome of `Init`: a Go panic, an error return, or a nil return, the two
returns carrying the receiver's final field values and the trace of external
calls. -/
inductive InitResult where
  | panicked (events : List InitEvent)
  | errored (e : GoError) (st : InstanceLogger) (events : List InitEvent)
  | ok (st : InstanceLogger) (events : List InitEvent)
deriving Repr, DecidableEq

/-- Method `(il *InstanceLogger) Init(errorTopicName, optionalInstanceName,
optionalProjectID)`, line by line.  The unchecked assertions
`perr.(net.Error)` / `err.(net.Error)` panic on a non-`net.Error`, and
`*il.projectID` at the `pubsub.NewClient` call panics when the field is
still nil (no override and the lookup timed out). -/
def InstanceLogger.Init (il0 : InstanceLogger) (errorTopicName : String)
    (optionalInstanceName : Option String) (optionalProjectID : Option String)
    (env : MetadataEnv) : InitResult :=
  let il1 : InstanceLogger := { il0 with errorTopicName := some errorTopicName }
  let il2 : InstanceLogger :=
    match optionalInstanceName with
    | some n => { il1 with instanceName := some n }
    | none => il1
  let il3 : InstanceLogger :=
    match optionalProjectID with
    | some p => { il2 with projectID := some p }
    | none => il2
  let afterLookup : InitResult ⊕ (InstanceLogger × List InitEvent) :=
    match optionalProjectID with
    | some _ => Sum.inr (il3, [])
    | none =>
      match env.projectIDResult with
      | Except.error perr =>
        if !perr.isNetError then Sum.inl (InitResult.panicked [InitEvent.lookupProjectID])
        else if !perr.timeout then
          Sum.inl (InitResult.errored perr il3 [InitEvent.lookupProjectID])
        else Sum.inr (il3, [InitEvent.lookupProjectID])
      | Except.ok foundProjectID =>
        Sum.inr ({ il3 with projectID := some foundProjectID }, [InitEvent.lookupProjectID])
  match afterLookup with
  | Sum.inl r => r
  | Sum.inr (il4, evs1) =>
    let il5 : InstanceLogger := { il4 with ctxActive := true, cancelFunc := true }
    match il5.projectID with
    | none => InitResult.panicked evs1
    | some pid =>
      let evs2 := evs1 ++ [InitEvent.newClient pid]
      match env.newClientResult with
      | Except.error err => InitResult.errored err il5 evs2
      | Except.ok _ =>
        let il6 : InstanceLogger :=
          { il5 with client := some { projectID := pid, hasOption := il5.clientOption } }
        let il7 : InstanceLogger := { il6 with topic := some { name := errorTopicName } }
        match optionalInstanceName with
        | some _ => InitResult.ok il7 evs2
        | none =>
          let evs3 := evs2 ++ [InitEvent.lookupInstanceName]
          match env.instanceNameResult with
          | Except.error err =>
            if !err.isNetError then InitResult.panicked evs3
            else if !err.timeout then InitResult.errored err il7 evs3
            else InitResult.ok il7 evs3
          | Except.ok foundInstanceName =>
            InitResult.ok { il7 with instanceName := some foundInstanceName } evs3

/-- Externally visible effects of one `Error`/`Fatal` call:
wait-group operations, the published payload, a `log` line, `os.Exit`. -/
inductive ErrEvent where
  | wgAdd (n : Nat)
  | wgDone
  | logLine (line : String)
  | publish (data : String)
  | osExit (code : Nat)
deriving Repr, DecidableEq

/-- Deterministic outcomes of the collaborators used by `Error`:
`debug.Stack()` and the `result.Get(il.ctx)` acknowledgment of the single
`topic.Publish` call (a message id, or an error). -/
structure ErrorEnv where
  stack : String
  publishResult : Except GoError String
deriving Repr

/-- The payload string built at lines 122-136: `fmt.Sprintf` into the
literal `{"error": "%v", "trace":"%v","instanceName":"%s"}` (or the variant
ending `"instanceName": null}`), with no JSON escaping of the
interpolated values. -/
def buildErrorMsg (errStr : String) (trace : String)
    (instanceName : Option String) : String :=
  match instanceName with
  | some n =>
    "\x7b\"error\": \"" ++ errStr ++ "\", \"trace\":\"" ++ trace ++
      "\",\"instanceName\":\"" ++ n ++ "\"\x7d"
  | none =>
    "\x7b\"error\": \"" ++ errStr ++ "\", \"trace\":\"" ++ trace ++
      "\",\"instanceName\": null\x7d"

/-- Method `(il *InstanceLogger) Error(err)`, line by line, as its event trace.
Every pointer it dereferences is nil-checked first, so the function always
returns; the trace records what it did. -/
def InstanceLogger.Error (il : InstanceLogger) (err : GoError)
    (env : ErrorEnv) : List ErrEvent :=
  let pre : List ErrEvent := if il.waitGroup then [ErrEvent.wgAdd 1] else []
  let post : List ErrEvent := if il.waitGroup then [ErrEvent.wgDone] else []
  match il.topic with
  | none => pre ++ [ErrEvent.logLine ("[ERROR] " ++ err.msg)] ++ post
  | some _ =>
    let errorMsg := buildErrorMsg err.msg env.stack il.instanceName
    let ack : List ErrEvent :=
      match env.publishResult with
      | Except.error e2 => [ErrEvent.logLine ("[ERROR] " ++ e2.msg)]
      | Except.ok id =>
        [ErrEvent.logLine ("[REPORTED_ERR(" ++ id ++ ")] " ++ errorMsg)]
    pre ++ [ErrEvent.publish errorMsg] ++ ack ++ post

/-- Method `(il *InstanceLogger) Fatal(err)`: `il.Error(err)` then `os.Exit(1)`. -/
def InstanceLogger.Fatal (il : InstanceLogger) (err : GoError)
    (env : ErrorEnv) : List ErrEvent :=
  il.Error err env ++ [ErrEvent.osExit 1]

/-- Release calls made by `Stop`. -/
inductive StopEvent where
  | topicStop
  | cancel
deriving Repr, DecidableEq

/-- Method `(il *InstanceLogger) Stop()`: calls `il.topic.Stop()` when the topic is
non-nil and `il.cancelFunc()` when that is non-nil.  It assigns no field, so
the receiver is returned unchanged alongside the release calls it made. -/
def InstanceLogger.Stop (il : InstanceLogger) : InstanceLogger × List StopEvent :=
  let evs1 : List StopEvent :=
    match il.topic with
    | some _ => [StopEvent.topicStop]
    | none => []
  let evs2 : List StopEvent := if il.cancelFunc then [StopEvent.cancel] else []
  (il, evs1 ++ evs2)

/-! A small executable JSON parser (RFC 8259 objects whose values are
strings or `null`, which is the shape the wire payload is specified to
have), used to check whether the strings `Error` publishes are valid JSON. -/

/-- JSON values occurring in the specified payload shape. -/
inductive JValue where
  | jstr (s : String)
  | jnull
deriving Repr, DecidableEq

/-- Skip JSON whitespace. -/
def skipWs : List Char → List Char
  | [] => []
  | c :: rest =>
    if c = ' ' ∨ c = '\t' ∨ c = '\n' ∨ c = '\r' then skipWs rest else c :: rest

/-- Hexadecimal digit test for `\uXXXX` escapes. -/
def isHexDigit (c : Char) : Bool :=
  c.isDigit || ('a' ≤ c && c ≤ 'f') || ('A' ≤ c && c ≤ 'F')

/-- Parse the body of a JSON string literal (after the opening quote) up to
and including the closing quote, honouring the RFC 8259 escapes and
rejecting raw control characters.  Returns the decoded string and the rest
of the input. -/
def parseStringLit : Nat → List Char → List Char → Option (String × List Char)
  | 0, _, _ => none
  | _ + 1, _, [] => none
  | fuel + 1, acc, c :: rest =>
    if c = '"' then some (String.mk acc.reverse, rest)
    else if c = '\\' then
      match rest with
      | [] => none
      | e :: rest2 =>
        if e = '"' then parseStringLit fuel ('"' :: acc) rest2
        else if e = '\\' then parseStringLit fuel ('\\' :: acc) rest2
        else if e = '/' then parseStringLit fuel ('/' :: acc) rest2
        else if e = 'n' then parseStringLit fuel ('\n' :: acc) rest2
        else if e = 't' then parseStringLit fuel ('\t' :: acc) rest2
        else if e = 'r' then parseStringLit fuel ('\r' :: acc) rest2
        else if e = 'b' then parseStringLit fuel ('\x08' :: acc) rest2
        else if e = 'f' then parseStringLit fuel ('\x0c' :: acc) rest2
        else if e = 'u' then
          match rest2 with
          | h1 :: h2 :: h3 :: h4 :: rest3 =>
            if isHexDigit h1 && isHexDigit h2 && isHexDigit h3 && isHexDigit h4 then
              parseStringLit fuel ('?' :: acc) rest3
            else none
          | _ => none
        else none
    else if c.toNat < 32 then none
    else parseStringLit fuel (c :: acc) rest

/-- Parse one JSON value of the payload shape: a string literal or `null`. -/
def parseJsonValue (fuel : Nat) (l : List Char) : Option (JValue × List Char) :=
  match fuel with
  | 0 => none
  | fuel + 1 =>
    match skipWs l with
    | '"' :: rest =>
      match parseStringLit fuel [] rest with
      | some (s, r) => some (JValue.jstr s, r)
      | none => none
    | 'n' :: 'u' :: 'l' :: 'l' :: rest => some (JValue.jnull, rest)
    | _ => none

/-- Parse a non-empty member list `"key": value (, "key": value)*` followed
by the closing brace. -/
def parseMembers : Nat → List Char → Option (List (String × JValue) × List Char)
  | 0, _ => none
  | fuel + 1, l =>
    match skipWs l with
    | '"' :: rest =>
      match parseStringLit fuel [] rest with
      | none => none
      | some (key, r1) =>
        match skipWs r1 with
        | ':' :: r2 =>
          match parseJsonValue fuel r2 with
          | none => none
          | some (v, r3) =>
            match skipWs r3 with
            | ',' :: r4 =>
              match parseMembers fuel r4 with
              | none => none
              | some (ms, r5) => some ((key, v) :: ms, r5)
            | '\x7d' :: r4 => some ([(key, v)], r4)
            | _ => none
        | _ => none
    | _ => none

/-- Parse a JSON object. -/
def parseJsonObjectAux (fuel : Nat) (l : List Char) :
    Option (List (String × JValue) × List Char) :=
  match fuel with
  | 0 => none
  | fuel + 1 =>
    match skipWs l with
    | '\x7b' :: rest =>
      match skipWs rest with
      | '\x7d' :: r => some ([], r)
      | _ => parseMembers fuel rest
    | _ => none

/-- Parse a complete string as a single JSON object (with string/null
values); `none` when the string is not valid JSON of that shape. -/
def parseJsonObject (s : String) : Option (List (String × JValue)) :=
  match parseJsonObjectAux (s.length + 10) s.data with
  | some (ms, rest) => if (skipWs rest).isEmpty then some ms else none
  | none => none

/-! Trace observations. -/

/-- The log lines of a trace. -/
def logsOf (evs : List ErrEvent) : List String :=
  evs.filterMap fun e =>
    match e with
    | ErrEvent.logLine s => some s
    | _ => none

/-- The published payloads of a trace. -/
def publishesOf (evs : List ErrEvent) : List String :=
  evs.filterMap fun e =>
    match e with
    | ErrEvent.publish d => some d
    | _ => none

/-- Is the event a wait-group increment? -/
def ErrEvent.isWgAdd : ErrEvent → Bool
  | ErrEvent.wgAdd _ => true
  | _ => false

/-- Is the event a wait-group decrement? -/
def ErrEvent.isWgDone : ErrEvent → Bool
  | ErrEvent.wgDone => true
  | _ => false

/-- Effect of one event on the wait-group counter. -/
def applyWg (c : Int) : ErrEvent → Int
  | ErrEvent.wgAdd n => c + n
  | ErrEvent.wgDone => c - 1
  | _ => c

/-- Wait-group counter after running a trace from `c`. -/
def runCounter (c : Int) (evs : List ErrEvent) : Int :=
  evs.foldl applyWg c

/-- Did `Init` return an error (as opposed to returning nil or panicking)? -/
def InitResult.returnsError : InitResult → Bool
  | InitResult.errored _ _ _ => true
  | _ => false

/-- The receiver's `topic` field at the moment `Init` returned (`none` for a
panic, which never returns). -/
def InitResult.stateTopic : InitResult → Option PubsubTopic
  | InitResult.errored _ st _ => st.topic
  | InitResult.ok st _ => st.topic
  | InitResult.panicked _ => none

/-! Concrete reporters, errors and environments used by witnesses and
counterexamples. -/

/-- A concrete reporter with a bound topic and a wait group, for witnesses. -/
def ilBound : InstanceLogger :=
  { New false true with topic := some { name := "errors" } }


/-- A concrete reported error whose dynamic type is not a `net.Error`. -/
def errBoom : GoError := { msg := "boom", isNetError := false, timeout := false }


/-- A concrete publish-acknowledgment failure. -/
def errDeadline : GoError :=
  { msg := "deadline exceeded", isNetError := true, timeout := true }


/-- A concrete `Error` environment whose acknowledgment fails. -/
def envAckFail : ErrorEnv := { stack := "s", publishResult := Except.error errDeadline }


/-- A concrete `Error` environment whose acknowledgment succeeds. -/
def envAckOk : ErrorEnv := { stack := "s", publishResult := Except.ok "id1" }


/-- A concrete reporter that has a bound topic and a cancel function, as
left behind by a successful `Init`. -/
def ilStopped : InstanceLogger :=
  { New false false with topic := some { name := "errors" }, cancelFunc := true }


/-- A concrete environment for the C4 witness: the project-ID lookup is
refused outright (a non-timeout `net.Error`). -/
def envRefused : MetadataEnv :=
  { projectIDResult := Except.error
      { msg := "connection refused", isNetError := true, timeout := false },
    instanceNameResult := Except.ok "host-42",
    newClientResult := Except.ok () }


/-- A concrete environment whose instance-name lookup is refused after a
successful client creation, for the C5 counterexample. -/
def envForbiddenIN : MetadataEnv :=
  { projectIDResult := Except.ok "ignored",
    instanceNameResult := Except.error
      { msg := "forbidden", isNetError := true, timeout := false },
    newClientResult := Except.ok () }


/-- A concrete environment whose project-ID lookup fails with an error that
does not implement `net.Error`. -/
def envOddError : MetadataEnv :=
  { projectIDResult := Except.error
      { msg := "unexpected EOF", isNetError := false, timeout := false },
    instanceNameResult := Except.ok "host-42",
    newClientResult := Except.ok () }


/-! Sanity checks on the JSON parser: on escape-free field values the payload
parses back to exactly the three specified fields, so the parser is not
biased towards rejection. -/

/-- On quote-, backslash- and control-free inputs the built payload is a
valid JSON object with exactly the three specified fields. -/
theorem buildErrorMsg_plain_inputs_parse :
    parseJsonObject (buildErrorMsg "disk full" "tr" (some "host-42")) =
      some [("error", JValue.jstr "disk full"), ("trace", JValue.jstr "tr"),
        ("instanceName", JValue.jstr "host-42")] ∧
    parseJsonObject (buildErrorMsg "disk full" "tr" none) =
      some [("error", JValue.jstr "disk full"), ("trace", JValue.jstr "tr"),
        ("instanceName", JValue.jnull)] := by decide

/-! Helper lemmas about the wait-group counter. -/

/-- Running a counter through a concatenated trace composes. -/
theorem runCounter_append (c : Int) (a b : List ErrEvent) :
    runCounter c (a ++ b) = runCounter (runCounter c a) b := by
  simp [runCounter]

/-- One `Error` call leaves the wait-group counter where it started,
whatever the receiver and environment. -/
theorem runCounter_error (il : InstanceLogger) (err : GoError) (env : ErrorEnv)
    (c : Int) : runCounter c (il.Error err env) = c := by
  rcases htop : il.topic with _ | t
  · cases hw : il.waitGroup <;>
      simp [InstanceLogger.Error, htop, hw, runCounter, applyWg]
  · rcases hpub : env.publishResult with e2 | id <;> cases hw : il.waitGroup <;>
      simp [InstanceLogger.Error, htop, hpub, hw, runCounter, applyWg]

/-- One `Fatal` call leaves the wait-group counter where it started. -/
theorem runCounter_fatal (il : InstanceLogger) (err : GoError) (env : ErrorEnv)
    (c : Int) : runCounter c (il.Fatal err env) = c := by
  rw [InstanceLogger.Fatal, runCounter_append, runCounter_error]
  simp [runCounter, applyWg]

/-- C1: when the wait-group pointer is non-nil, every `Error` call increments
the counter exactly once as its first action and decrements it exactly once
as its last action, on every code path; consequently the counter's net change
across any sequence of `Error`/`Fatal` calls is zero. -/
theorem error_waitGroup_balanced (il : InstanceLogger) (h : il.waitGroup = true) :
    (∀ (err : GoError) (env : ErrorEnv),
      (il.Error err env).head? = some (ErrEvent.wgAdd 1) ∧
      (il.Error err env).getLast? = some ErrEvent.wgDone ∧
      ((il.Error err env).filter ErrEvent.isWgAdd).length = 1 ∧
      ((il.Error err env).filter ErrEvent.isWgDone).length = 1) ∧
    (∀ (c : Int) (calls : List (Bool × GoError × ErrorEnv)),
      runCounter c
        (List.flatten (calls.map fun t =>
          if t.1 then il.Fatal t.2.1 t.2.2 else il.Error t.2.1 t.2.2)) = c) := by
  constructor
  · intro err env
    rcases htop : il.topic with _ | t
    · simp [InstanceLogger.Error, htop, h, ErrEvent.isWgAdd, ErrEvent.isWgDone]
    · rcases hpub : env.publishResult with e2 | id <;>
        simp [InstanceLogger.Error, htop, hpub, h, ErrEvent.isWgAdd,
          ErrEvent.isWgDone]
  · intro c calls
    induction calls generalizing c with
    | nil => simp [runCounter]
    | cons hd tl ih =>
      rcases hd with ⟨b, err, env⟩
      cases b <;>
        simp [List.flatten, runCounter_append, runCounter_error, runCounter_fatal, ih]

/-- Witness for C1 at a concrete reporter, error and environment. -/
theorem error_waitGroup_balanced_witness :
    (New false true).waitGroup = true ∧
    (((New false true).Error { msg := "boom", isNetError := false, timeout := false }
        { stack := "s", publishResult := Except.ok "id1" }).head? =
        some (ErrEvent.wgAdd 1) ∧
      ((New false true).Error { msg := "boom", isNetError := false, timeout := false }
        { stack := "s", publishResult := Except.ok "id1" }).getLast? =
        some ErrEvent.wgDone ∧
      (((New false true).Error { msg := "boom", isNetError := false, timeout := false }
        { stack := "s", publishResult := Except.ok "id1" }).filter
          ErrEvent.isWgAdd).length = 1 ∧
      (((New false true).Error { msg := "boom", isNetError := false, timeout := false }
        { stack := "s", publishResult := Except.ok "id1" }).filter
          ErrEvent.isWgDone).length = 1) :=
  ⟨by decide,
    (error_waitGroup_balanced (New false true) (by decide)).1
      { msg := "boom", isNetError := false, timeout := false }
      { stack := "s", publishResult := Except.ok "id1" }⟩

/-- C2: when the topic is bound and the publish acknowledgment fails, the
whole `Error` call is exactly one publish attempt (no retry) followed by one
local log line for the failure, wrapped in the wait-group bookkeeping — in
particular the call returns normally and surfaces nothing to the caller. -/
theorem error_publish_failure_local_only (il : InstanceLogger) (err : GoError)
    (env : ErrorEnv) (e2 : GoError) (htop : il.topic ≠ none)
    (hpub : env.publishResult = Except.error e2) :
    il.Error err env =
      (if il.waitGroup then [ErrEvent.wgAdd 1] else []) ++
        [ErrEvent.publish (buildErrorMsg err.msg env.stack il.instanceName),
          ErrEvent.logLine ("[ERROR] " ++ e2.msg)] ++
        (if il.waitGroup then [ErrEvent.wgDone] else []) := by
  rcases ht : il.topic with _ | t
  · exact absurd ht htop
  · simp [InstanceLogger.Error, ht, hpub]

/-- Witness for C2 at a concrete reporter and failing acknowledgment. -/
theorem error_publish_failure_local_only_witness :
    ilBound.topic ≠ none ∧ envAckFail.publishResult = Except.error errDeadline ∧
    ilBound.Error errBoom envAckFail =
      (if ilBound.waitGroup then [ErrEvent.wgAdd 1] else []) ++
        [ErrEvent.publish (buildErrorMsg errBoom.msg envAckFail.stack ilBound.instanceName),
          ErrEvent.logLine ("[ERROR] " ++ errDeadline.msg)] ++
        (if ilBound.waitGroup then [ErrEvent.wgDone] else []) :=
  ⟨by decide, rfl,
    error_publish_failure_local_only ilBound errBoom envAckFail errDeadline
      (by decide) rfl⟩

/-- C9: before any successful `Init` the topic is nil, and then `Error`
emits exactly one local log line and nothing else besides the wait-group
bookkeeping: no payload is built, no publish call is made. -/
theorem error_before_init_local_only (il : InstanceLogger) (err : GoError)
    (env : ErrorEnv) (h : il.topic = none) :
    il.Error err env =
      (if il.waitGroup then [ErrEvent.wgAdd 1] else []) ++
        [ErrEvent.logLine ("[ERROR] " ++ err.msg)] ++
        (if il.waitGroup then [ErrEvent.wgDone] else []) ∧
    publishesOf (il.Error err env) = [] := by
  constructor
  · simp [InstanceLogger.Error, h]
  · cases hw : il.waitGroup <;> simp [InstanceLogger.Error, h, hw, publishesOf]

/-- Witness for C9 at a concrete uninitialized reporter. -/
theorem error_before_init_local_only_witness :
    (New false true).topic = none ∧
    ((New false true).Error errBoom envAckOk =
      (if (New false true).waitGroup then [ErrEvent.wgAdd 1] else []) ++
        [ErrEvent.logLine ("[ERROR] " ++ errBoom.msg)] ++
        (if (New false true).waitGroup then [ErrEvent.wgDone] else []) ∧
      publishesOf ((New false true).Error errBoom envAckOk) = []) :=
  ⟨rfl, error_before_init_local_only (New false true) errBoom envAckOk rfl⟩

/-- C7 counterexample: a not-initialized call and a publish-failed call can
produce the identical local log line `[ERROR] boom` — the two outcomes share
one tag, so there are not three distinct outcome-identifying tags. -/
theorem error_log_tags_collide_counterexample :
    (New false false).topic = none ∧
    ilBound.topic ≠ none ∧
    envAckFail.publishResult = Except.error errDeadline ∧
    logsOf ((New false false).Error
        { msg := "deadline exceeded", isNetError := false, timeout := false }
        envAckOk) = ["[ERROR] deadline exceeded"] ∧
    logsOf (ilBound.Error errBoom envAckFail) = ["[ERROR] deadline exceeded"] :=
  ⟨rfl, by decide, rfl, rfl, rfl⟩

/-- C7 amended: every `Error` call produces exactly one local log line, and
that line carries one of exactly two tags: `[ERROR]` (shared by the
not-initialized and publish-failed outcomes) or `[REPORTED_ERR(id)]` (the
success outcome). -/
theorem error_exactly_one_log_line (il : InstanceLogger) (err : GoError)
    (env : ErrorEnv) :
    (∃ s, logsOf (il.Error err env) = ["[ERROR] " ++ s]) ∨
    (∃ id m, logsOf (il.Error err env) = ["[REPORTED_ERR(" ++ id ++ ")] " ++ m]) := by
  rcases htop : il.topic with _ | t
  · left
    refine ⟨err.msg, ?_⟩
    cases hw : il.waitGroup <;> simp [InstanceLogger.Error, htop, hw, logsOf]
  · rcases hpub : env.publishResult with e2 | id
    · left
      refine ⟨e2.msg, ?_⟩
      cases hw : il.waitGroup <;>
        simp [InstanceLogger.Error, htop, hpub, hw, logsOf]
    · right
      refine ⟨id, buildErrorMsg err.msg env.stack il.instanceName, ?_⟩
      cases hw : il.waitGroup <;>
        simp [InstanceLogger.Error, htop, hpub, hw, logsOf]

/-- C6 counterexample: on a reporter with a bound topic and cancel function,
the second `Stop` call is not a no-op — it re-invokes `topic.Stop()` and the
cancel function exactly as the first call did. -/
theorem stop_second_call_not_noop_counterexample :
    (ilStopped.Stop.1.Stop).2 = [StopEvent.topicStop, StopEvent.cancel] ∧
    (ilStopped.Stop.1.Stop).2 ≠ [] := by decide

/-- C6 amended: `Stop` never fails and never changes the receiver's fields,
so repeated calls leave the state identical; but, because no field is
cleared, a second `Stop` repeats exactly the release calls of the first
(relying on the released handles' own idempotence) rather than releasing
nothing. -/
theorem stop_state_unchanged_calls_repeated (il : InstanceLogger) :
    (il.Stop).1 = il ∧ ((il.Stop).1.Stop).2 = (il.Stop).2 :=
  ⟨rfl, rfl⟩

/-- C3 (code bug): with no project-ID override and a metadata service that
times out, `Init` ignores the timeout, leaves `projectID` nil, and then
dereferences it at the `pubsub.NewClient` call — a nil-pointer panic instead
of the specified successful return with both fields unset. -/
theorem init_timeout_discovery_panics :
    (New false true).Init "errors" none none
      { projectIDResult := Except.error
          { msg := "metadata timeout", isNetError := true, timeout := true },
        instanceNameResult := Except.error
          { msg := "metadata timeout", isNetError := true, timeout := true },
        newClientResult := Except.ok () } =
      InitResult.panicked [InitEvent.lookupProjectID] := by decide

/-- C8 (code bug): after successful initialization, the payload `Error`
publishes for an error whose message contains a quote (or for any stack
trace containing a newline, which real stack traces always do) is not a
valid JSON object at all. -/
theorem error_payload_not_valid_json :
    publishesOf (ilBound.Error
        { msg := "disk \"full\"", isNetError := false, timeout := false }
        { stack := "goroutine 1 [running]:\nmain.main()",
          publishResult := Except.ok "id1" }) =
      [buildErrorMsg "disk \"full\"" "goroutine 1 [running]:\nmain.main()" none] ∧
    parseJsonObject
      (buildErrorMsg "disk \"full\"" "goroutine 1 [running]:\nmain.main()" none) =
      none ∧
    parseJsonObject (buildErrorMsg "boom" "line1\nline2" none) = none := by decide

/-- C4: with no project-ID override, when the project-ID lookup fails with a
non-timeout `net.Error`, `Init` returns exactly that error; the only
external call made is the lookup itself, so `pubsub.NewClient` is never
reached and the client and topic fields are untouched. -/
theorem init_nontimeout_projectID_error_returns (il : InstanceLogger)
    (tn : String) (optIN : Option String) (perr : GoError) (env : MetadataEnv)
    (h1 : env.projectIDResult = Except.error perr)
    (h2 : perr.isNetError = true) (h3 : perr.timeout = false) :
    ∃ st : InstanceLogger,
      il.Init tn optIN none env =
        InitResult.errored perr st [InitEvent.lookupProjectID] ∧
      st.client = il.client ∧ st.topic = il.topic := by
  rcases optIN with _ | n
  · exact ⟨{ il with errorTopicName := some tn },
      by simp [InstanceLogger.Init, h1, h2, h3], rfl, rfl⟩
  · exact ⟨{ il with errorTopicName := some tn, instanceName := some n },
      by simp [InstanceLogger.Init, h1, h2, h3], rfl, rfl⟩

/-- Witness for C4 at a concrete fresh reporter and refusing environment. -/
theorem init_nontimeout_projectID_error_returns_witness :
    envRefused.projectIDResult = Except.error
      { msg := "connection refused", isNetError := true, timeout := false } ∧
    (∃ st : InstanceLogger,
      (New false true).Init "errors" none none envRefused =
        InitResult.errored
          { msg := "connection refused", isNetError := true, timeout := false }
          st [InitEvent.lookupProjectID] ∧
      st.client = (New false true).client ∧ st.topic = (New false true).topic) :=
  ⟨rfl,
    init_nontimeout_projectID_error_returns (New false true) "errors" none
      { msg := "connection refused", isNetError := true, timeout := false }
      envRefused rfl rfl rfl⟩

/-- C5 counterexample: `Init` with an explicit project ID whose instance-name
lookup fails with a non-timeout error returns an error, yet the receiver's
`topic` field is already non-nil — the topic is bound at line 92, before the
instance-name lookup. -/
theorem init_error_with_topic_bound_counterexample :
    ((New false false).Init "errors" none (some "proj-1") envForbiddenIN).returnsError =
      true ∧
    ((New false false).Init "errors" none (some "proj-1") envForbiddenIN).stateTopic =
      some { name := "errors" } := by decide

/-- C5 amended: starting from a nil topic, an error return of `Init` leaves
`topic` nil in the project-ID-lookup and client-creation failure paths, and a
successful return binds `topic` to the requested name — but the error return
from a failed instance-name lookup happens after the topic is bound, so
there `topic` is already non-nil (with the client also created). -/
theorem init_topic_nonnull_only_after_client (il : InstanceLogger) (tn : String)
    (optIN optPID : Option String) (env : MetadataEnv) (h0 : il.topic = none) :
    match il.Init tn optIN optPID env with
    | InitResult.errored e st _ =>
        st.topic = none ∨
          (optIN = none ∧ env.instanceNameResult = Except.error e ∧
            env.newClientResult = Except.ok () ∧ st.topic = some { name := tn } ∧
            st.client ≠ none)
    | InitResult.ok st _ => st.topic = some { name := tn }
    | InitResult.panicked _ => True := by
  rcases optPID with _ | p
  · rcases hpr : env.projectIDResult with ⟨pe⟩ | pid
    · rcases pe with ⟨pmsg, pnet, ptime⟩
      cases pnet
      · rcases optIN with _ | n <;> simp [InstanceLogger.Init, hpr]
      · cases ptime
        · rcases optIN with _ | n <;> simp [InstanceLogger.Init, hpr, h0]
        · rcases hpid : il.projectID with _ | pid0
          · rcases optIN with _ | n <;> simp [InstanceLogger.Init, hpr, hpid]
          · rcases hnc : env.newClientResult with ⟨ne⟩ | u
            · rcases optIN with _ | n <;>
                simp [InstanceLogger.Init, hpr, hpid, hnc, h0]
            · rcases optIN with _ | n
              · rcases hin : env.instanceNameResult with ⟨ie⟩ | iname
                · rcases ie with ⟨imsg, inet, itime⟩
                  cases inet
                  · simp [InstanceLogger.Init, hpr, hpid, hnc, hin]
                  · cases itime
                    · simp [InstanceLogger.Init, hpr, hpid, hnc, hin]
                    · simp [InstanceLogger.Init, hpr, hpid, hnc, hin]
                · simp [InstanceLogger.Init, hpr, hpid, hnc, hin]
              · simp [InstanceLogger.Init, hpr, hpid, hnc]
    · rcases hnc : env.newClientResult with ⟨ne⟩ | u
      · rcases optIN with _ | n <;> simp [InstanceLogger.Init, hpr, hnc, h0]
      · rcases optIN with _ | n
        · rcases hin : env.instanceNameResult with ⟨ie⟩ | iname
          · rcases ie with ⟨imsg, inet, itime⟩
            cases inet
            · simp [InstanceLogger.Init, hpr, hnc, hin]
            · cases itime
              · simp [InstanceLogger.Init, hpr, hnc, hin]
              · simp [InstanceLogger.Init, hpr, hnc, hin]
          · simp [InstanceLogger.Init, hpr, hnc, hin]
        · simp [InstanceLogger.Init, hpr, hnc]
  · rcases hnc : env.newClientResult with ⟨ne⟩ | u
    · rcases optIN with _ | n <;> simp [InstanceLogger.Init, hnc, h0]
    · rcases optIN with _ | n
      · rcases hin : env.instanceNameResult with ⟨ie⟩ | iname
        · rcases ie with ⟨imsg, inet, itime⟩
          cases inet
          · simp [InstanceLogger.Init, hnc, hin]
          · cases itime
            · simp [InstanceLogger.Init, hnc, hin]
            · simp [InstanceLogger.Init, hnc, hin]
        · simp [InstanceLogger.Init, hnc, hin]
      · simp [InstanceLogger.Init, hnc]

/-- Witness for the amended C5 at a concrete reporter and environment where
`Init` errors with the topic already bound. -/
theorem init_topic_nonnull_only_after_client_witness :
    (New false false).topic = none ∧
    (match (New false false).Init "errors" none (some "proj-1") envForbiddenIN with
    | InitResult.errored e st _ =>
        st.topic = none ∨
          ((none : Option String) = none ∧
            envForbiddenIN.instanceNameResult = Except.error e ∧
            envForbiddenIN.newClientResult = Except.ok () ∧
            st.topic = some { name := "errors" } ∧ st.client ≠ none)
    | InitResult.ok st _ => st.topic = some { name := "errors" }
    | InitResult.panicked _ => True) :=
  ⟨rfl,
    init_topic_nonnull_only_after_client (New false false) "errors" none
      (some "proj-1") envForbiddenIN rfl⟩

/-- C10: the timeout-tolerance check applies `perr.(net.Error)` without a
checked assertion, so a discovery error whose dynamic type does not
implement `net.Error` makes `Init` panic — on the project-ID lookup, and
likewise on the instance-name lookup once the client has been created —
instead of returning the error. -/
theorem init_non_net_error_panics (il : InstanceLogger) (tn : String)
    (e : GoError) (he : e.isNetError = false) :
    (∀ (env : MetadataEnv) (optIN : Option String),
      env.projectIDResult = Except.error e →
      il.Init tn optIN none env = InitResult.panicked [InitEvent.lookupProjectID]) ∧
    (∀ (env : MetadataEnv) (p : String),
      env.instanceNameResult = Except.error e →
      env.newClientResult = Except.ok () →
      il.Init tn none (some p) env =
        InitResult.panicked [InitEvent.newClient p, InitEvent.lookupInstanceName]) := by
  constructor
  · intro env optIN hpr
    rcases optIN with _ | n <;> simp [InstanceLogger.Init, hpr, he]
  · intro env p hin hnc
    simp [InstanceLogger.Init, hin, hnc, he]

/-- Witness for C10 at a concrete reporter and non-`net.Error` discovery
failure. -/
theorem init_non_net_error_panics_witness :
    ({ msg := "unexpected EOF", isNetError := false, timeout := false } :
        GoError).isNetError = false ∧
    envOddError.projectIDResult = Except.error
      { msg := "unexpected EOF", isNetError := false, timeout := false } ∧
    (New false true).Init "errors" none none envOddError =
      InitResult.panicked [InitEvent.lookupProjectID] :=
  ⟨rfl, rfl,
    (init_non_net_error_panics (New false true) "errors"
      { msg := "unexpected EOF", isNetError := false, timeout := false } rfl).1
      envOddError none rfl⟩
